import Mathlib

/-!
# Verification of the SecureShare file-transfer core (`src/project/src/App.tsx`)

Shallow embedding of the chunked file-transfer protocol implemented in
`App.tsx`: the sender (`sendFile` / `sendNextChunk`), the receiver
(`handleReceivedData` / `assembleAndDownloadFile`) and the session reset
(`switchMode`).  Bytes are modelled as `Nat`, a file as a `List Nat`;
JavaScript sparse arrays (`fileChunksRef.current`) are modelled as
`List (Option Bytes)` where `none` is a hole.
-/

namespace SecureShare

abbrev Byte := Nat
abbrev Bytes := List Byte

/-- `const CHUNK_SIZE = 16384` (App.tsx line 245). -/
def CHUNK_SIZE : Nat := 16384

/-- `Math.ceil(file.size / CHUNK_SIZE)` (App.tsx line 246), rendered on `Nat`. -/
def totalChunks (size : Nat) : Nat := (size + CHUNK_SIZE - 1) / CHUNK_SIZE

/-- `Math.round(num / den)` for the non-negative rational `num / den`
(the progress computations at App.tsx lines 279 and 352 are
`Math.round((k / n) * 100)`, i.e. `jsRound (k * 100) n`).
JavaScript division by zero gives `Infinity`; `den = 0` is outside every
scenario considered below, where the modelled value is `0`-division on `Nat`. -/
def jsRound (num den : Nat) : Nat := (2 * num + den) / (2 * den)

/-- `file.slice(start, end)` (JS `Blob.slice`, App.tsx line 266) for
`start`, `end` already clamped to the file size. -/
def sliceFile (file : Bytes) (s e : Nat) : Bytes := (file.take e).drop s

/-- A message the sender puts on the data channel (App.tsx lines 235-240,
271-276, 256-258). -/
inductive WireMsg where
  | metadata (name : String) (size : Nat) (fileType : String)
  | chunk (data : Bytes) (chunkIndex : Nat) (totalChunks : Nat)
  | complete
  deriving DecidableEq

/-- Payload of a `FILE_CHUNK` message (`[]` for the other tags). -/
def chunkData : WireMsg → Bytes
  | .chunk d _ _ => d
  | _ => []

/-- `sendNextChunk` (App.tsx lines 251-304) on the happy path (connection
stays ready, every read succeeds): first component is the list of
`FILE_CHUNK` messages sent, second the successive values passed to
`setTransferProgress`.  The recursion mirrors the source: slice
`[start, min (start + CHUNK_SIZE) size)`, send it tagged with the running
`chunksProcessed` counter, update progress with the incremented counter,
recurse at `end`. -/
def sendNextChunk (file : Bytes) (start chunksProcessed tot : Nat) :
    List WireMsg × List Nat :=
  if h : start < file.length then
    (WireMsg.chunk (sliceFile file start (min (start + CHUNK_SIZE) file.length))
        chunksProcessed tot ::
      (sendNextChunk file (min (start + CHUNK_SIZE) file.length)
        (chunksProcessed + 1) tot).1,
     jsRound ((chunksProcessed + 1) * 100) tot ::
      (sendNextChunk file (min (start + CHUNK_SIZE) file.length)
        (chunksProcessed + 1) tot).2)
  else ([], [])
termination_by file.length - start
decreasing_by
  simp only [CHUNK_SIZE]
  omega

/-- The connection context `sendFile` guards on (App.tsx line 226):
`connectionRef.current`, `connectionStatus`, `connectionReady`. -/
structure SenderConn where
  hasConnection : Bool
  connectionStatus : String
  connectionReady : Bool
  deriving DecidableEq

/-- The sender-side transfer state mutated by `sendFile`. -/
structure SenderTransfer where
  transferStatus : String
  transferProgress : Nat
  deriving DecidableEq

/-- Observable outcome of one `sendFile` call. -/
structure SendResult where
  state : SenderTransfer
  sent : List WireMsg
  progressUpdates : List Nat
  errorSurfaced : Bool
  deriving DecidableEq

/-- The file argument of `sendFile`. -/
structure SenderFile where
  name : String
  content : Bytes
  fileType : String
  deriving DecidableEq

/-- `sendFile` (App.tsx lines 225-313).  The guard branch (line 226) surfaces
a toast error and returns without touching any state.  The main branch is
modelled on the happy path (the connection stays ready for the whole
transfer, so the `FILE_COMPLETE` re-check at line 255 passes and the final
status is `'sent'`); the final progress value is the last
`setTransferProgress` argument, or the previous value if no chunk was sent. -/
def sendFile (c : SenderConn) (st : SenderTransfer) (f : SenderFile) : SendResult :=
  if !c.hasConnection || c.connectionStatus != "connected" || !c.connectionReady then
    { state := st, sent := [], progressUpdates := [], errorSurfaced := true }
  else
    { state := { transferStatus := "sent",
                 transferProgress :=
                   ((sendNextChunk f.content 0 0 (totalChunks f.content.length)).2.getLast?).getD
                     st.transferProgress },
      sent := WireMsg.metadata f.name f.content.length f.fileType ::
        ((sendNextChunk f.content 0 0 (totalChunks f.content.length)).1 ++ [WireMsg.complete]),
      progressUpdates := (sendNextChunk f.content 0 0 (totalChunks f.content.length)).2,
      errorSurfaced := false }

/-- A message seen by the receiver's `handleReceivedData` (App.tsx lines
315-374).  Field presence checks in the source (`!data.data`,
`data.chunkIndex !== undefined`, truthiness of `data.totalChunks`) are
modelled with `Option`; a well-formed-but-unknown tag (and the plain
ack string, which fails the `typeof data === 'object'` test) is `other`. -/
inductive RecvMsg where
  | metadata (name : String) (size : Nat) (fileType : String)
  | chunk (data : Option Bytes) (chunkIndex : Option Nat) (totalChunks : Option Nat)
  | complete
  | other
  deriving DecidableEq

/-- What the sender's wire messages look like to `handleReceivedData`. -/
def toRecvMsg : WireMsg → RecvMsg
  | .metadata n s t => .metadata n s t
  | .chunk d i t => .chunk (some d) (some i) (some t)
  | .complete => .complete

/-- Receiver-side state: the refs `fileChunksRef` (a JS sparse array,
holes as `none`), `receivedChunksRef`, `totalChunksRef`, the React state
`receivedFileName/Size/Type`, `transferStatus`, `transferProgress`, and the
connection facts (`connectionRef.current` non-null, `connectionReady`) read
at App.tsx line 429. -/
structure ReceiverState where
  fileChunksRef : List (Option Bytes)
  receivedChunksRef : Nat
  totalChunksRef : Nat
  receivedFileName : String
  receivedFileSize : Nat
  receivedFileType : String
  transferStatus : String
  transferProgress : Nat
  hasConnection : Bool
  connectionReady : Bool
  deriving DecidableEq

/-- Receiver state at mount: empty refs and counters, empty strings,
progress 0 (`useState`/`useRef` initialisers, App.tsx lines 38-50). -/
def initialReceiverState (hc cr : Bool) : ReceiverState :=
  { fileChunksRef := [], receivedChunksRef := 0, totalChunksRef := 0,
    receivedFileName := "", receivedFileSize := 0, receivedFileType := "",
    transferStatus := "", transferProgress := 0,
    hasConnection := hc, connectionReady := cr }

/-- JS sparse-array assignment `a[i] = v`: in-place set when `i < a.length`,
otherwise the array grows to `i + 1` with holes in between
(`fileChunksRef.current[data.chunkIndex] = data.data`, App.tsx line 348). -/
def setChunkAt (l : List (Option Bytes)) (i : Nat) (p : Bytes) : List (Option Bytes) :=
  if i < l.length then l.set i (some p)
  else l ++ List.replicate (i - l.length) none ++ [some p]

/-- Byte length contributed by one slot of the sparse chunk array
(`chunk ? chunk.byteLength : 0`, App.tsx line 388). -/
def chunkLen (o : Option Bytes) : Nat := (o.getD []).length

/-- Total assembled length, `fileChunksRef.current.reduce(...)`
(App.tsx lines 387-389). -/
def assembledSize (l : List (Option Bytes)) : Nat := (l.map chunkLen).sum

/-- Side outputs of `assembleAndDownloadFile`: the toast error (if any), the
assembled byte sequence handed to the blob download (if any), and whether
the `FILE_RECEIVED_SUCCESSFULLY` ack was sent back. -/
structure AssembleEffects where
  errorMsg : Option String
  savedFile : Option Bytes
  ackSent : Bool
  deriving DecidableEq

/-- `assembleAndDownloadFile` (App.tsx lines 376-437): error out on an empty
chunk array ("No data received") or a zero total length ("Empty file"),
otherwise concatenate present chunks in index order, mark the transfer
completed, and ack the sender when the connection is still up. -/
def assembleAndDownloadFile (s : ReceiverState) : ReceiverState × AssembleEffects :=
  if s.fileChunksRef.length = 0 then
    ({ s with transferStatus := "error" },
     { errorMsg := some "Error downloading file: No data received",
       savedFile := none, ackSent := false })
  else if assembledSize s.fileChunksRef = 0 then
    ({ s with transferStatus := "error" },
     { errorMsg := some "Error downloading file: Empty file",
       savedFile := none, ackSent := false })
  else
    ({ s with transferStatus := "completed" },
     { errorMsg := none,
       savedFile := some (s.fileChunksRef.filterMap id).flatten,
       ackSent := s.hasConnection && s.connectionReady })

/-- `handleReceivedData` (App.tsx lines 315-374), dispatching on the message
tag.  `FILE_METADATA` resets the three refs and records the file facts
(there is no `setTransferProgress(0)` in that branch); `FILE_CHUNK` returns
unchanged when `data` is absent, latches `totalChunks` from the message when
the ref is still falsy, stores the payload at `chunkIndex` when that field is
present, increments the received counter and recomputes progress;
`FILE_COMPLETE` runs `assembleAndDownloadFile`. -/
def handleReceivedData (s : ReceiverState) (m : RecvMsg) : ReceiverState :=
  match m with
  | .metadata name size ftype =>
      { s with fileChunksRef := [], receivedChunksRef := 0, totalChunksRef := 0,
               receivedFileName := if name = "" then "unknown" else name,
               receivedFileSize := size,
               receivedFileType := ftype,
               transferStatus := "receiving" }
  | .chunk dta idx tot =>
      match dta with
      | none => s
      | some payload =>
          let s1 :=
            if s.totalChunksRef = 0 then
              match tot with
              | some t => if t = 0 then s else { s with totalChunksRef := t }
              | none => s
            else s
          match idx with
          | none => s1
          | some i =>
              { s1 with
                fileChunksRef := setChunkAt s1.fileChunksRef i payload,
                receivedChunksRef := s1.receivedChunksRef + 1,
                transferProgress :=
                  jsRound ((s1.receivedChunksRef + 1) * 100) s1.totalChunksRef }
  | .complete => (assembleAndDownloadFile s).1
  | .other => s

/-- Folding a list of inbound messages through `handleReceivedData`
(the `conn.on('data', ...)` loop, App.tsx lines 165-177). -/
def receiverRun (s : ReceiverState) (ms : List RecvMsg) : ReceiverState :=
  ms.foldl handleReceivedData s

/-- The component state reset by `switchMode`, together with the two refs it
nulls out (`connectionRef`, `peerRef`). -/
structure AppState where
  joinMode : Bool
  connectionStatus : String
  selectedFile : Option SenderFile
  transferProgress : Nat
  transferStatus : String
  joinRoomId : String
  peerReady : Bool
  connectionReady : Bool
  hasConnection : Bool
  hasPeer : Bool
  deriving DecidableEq

/-- Teardown calls `switchMode` makes on the live refs. -/
inductive TeardownAction where
  | closeConnection
  | destroyPeer
  deriving DecidableEq

/-- `switchMode` (App.tsx lines 459-480): flip `joinMode`, reset every other
piece of connection/transfer state to its default, null the refs. -/
def switchMode (s : AppState) : AppState :=
  { joinMode := !s.joinMode, connectionStatus := "disconnected",
    selectedFile := none, transferProgress := 0, transferStatus := "",
    joinRoomId := "", peerReady := false, connectionReady := false,
    hasConnection := false, hasPeer := false }

/-- The teardown calls `switchMode` performs, in source order: close the
connection if one is live (line 471), then destroy the peer if one is live
(line 476). -/
def switchModeActions (s : AppState) : List TeardownAction :=
  (if s.hasConnection then [TeardownAction.closeConnection] else []) ++
  (if s.hasPeer then [TeardownAction.destroyPeer] else [])

/-! ## Helper lemmas about the sender loop -/

theorem sliceFile_eq_take (l : Bytes) (s : Nat) :
    sliceFile l s (min (s + CHUNK_SIZE) l.length) = (l.drop s).take CHUNK_SIZE := by
  unfold sliceFile
  rw [List.drop_take]
  rcases le_or_lt (s + CHUNK_SIZE) l.length with h | h
  · rw [min_eq_left h]
    congr 1
    omega
  · rw [min_eq_right (le_of_lt h)]
    rw [List.take_of_length_le (by simp), List.take_of_length_le (by simp; omega)]

theorem drop_min_eq (l : Bytes) (s k : Nat) :
    l.drop (min (s + k) l.length) = l.drop (s + k) := by
  rcases le_or_lt (s + k) l.length with h | h
  · rw [min_eq_left h]
  · rw [min_eq_right (le_of_lt h), List.drop_length,
      List.drop_eq_nil_of_le (le_of_lt h)]

theorem sendNextChunk_flatten (file : Bytes) (tot : Nat) :
    ∀ N start idx, file.length - start ≤ N →
      (((sendNextChunk file start idx tot).1).map chunkData).flatten = file.drop start := by
  intro N
  induction N with
  | zero =>
    intro start idx h
    unfold sendNextChunk
    rw [dif_neg (by omega)]
    simp [List.drop_eq_nil_of_le (by omega : file.length ≤ start)]
  | succ N ih =>
    intro start idx h
    by_cases hs : start < file.length
    · unfold sendNextChunk
      rw [dif_pos hs]
      simp only [List.map_cons, List.flatten_cons, chunkData]
      rw [ih _ (idx + 1) (by simp only [CHUNK_SIZE]; omega)]
      rw [sliceFile_eq_take, drop_min_eq, ← List.drop_drop]
      exact List.take_append_drop ..
    · unfold sendNextChunk
      rw [dif_neg hs]
      simp [List.drop_eq_nil_of_le (by omega : file.length ≤ start)]

theorem sendNextChunk_eq_range (file : Bytes) (t : Nat) :
    ∀ k idx, totalChunks file.length - idx = k →
      sendNextChunk file (idx * CHUNK_SIZE) idx t =
        ((List.range' idx k).map fun j =>
            WireMsg.chunk ((file.drop (j * CHUNK_SIZE)).take CHUNK_SIZE) j t,
         (List.range' idx k).map fun j => jsRound ((j + 1) * 100) t) := by
  intro k
  induction k with
  | zero =>
    intro idx h
    simp only [totalChunks, CHUNK_SIZE] at h
    unfold sendNextChunk
    rw [dif_neg (by simp only [CHUNK_SIZE]; omega)]
    simp
  | succ k ih =>
    intro idx h
    have hlt : idx * CHUNK_SIZE < file.length := by
      simp only [totalChunks, CHUNK_SIZE] at h ⊢
      omega
    unfold sendNextChunk
    rw [dif_pos hlt, sliceFile_eq_take]
    rw [List.range'_succ, List.map_cons, List.map_cons]
    by_cases hc : idx * CHUNK_SIZE + CHUNK_SIZE ≤ file.length
    · have hmin : min (idx * CHUNK_SIZE + CHUNK_SIZE) file.length = (idx + 1) * CHUNK_SIZE := by
        rw [min_eq_left hc, Nat.succ_mul]
      rw [hmin, ih (idx + 1) (by simp only [totalChunks, CHUNK_SIZE] at h ⊢; omega)]
    · have hmin : min (idx * CHUNK_SIZE + CHUNK_SIZE) file.length = file.length :=
        min_eq_right (by omega)
      have hk : k = 0 := by
        simp only [totalChunks, CHUNK_SIZE] at h
        simp only [CHUNK_SIZE] at hc
        omega
      subst hk
      rw [hmin]
      unfold sendNextChunk
      rw [dif_neg (lt_irrefl _)]
      simp

theorem sendNextChunk_zero (file : Bytes) (t : Nat) :
    sendNextChunk file 0 0 t =
      ((List.range (totalChunks file.length)).map fun j =>
          WireMsg.chunk ((file.drop (j * CHUNK_SIZE)).take CHUNK_SIZE) j t,
       (List.range (totalChunks file.length)).map fun j => jsRound ((j + 1) * 100) t) := by
  have h := sendNextChunk_eq_range file t (totalChunks file.length) 0 (by omega)
  rw [Nat.zero_mul] at h
  rw [h, List.range_eq_range']

theorem sendNextChunk_fst (file : Bytes) (t : Nat) :
    (sendNextChunk file 0 0 t).1 =
      (List.range (totalChunks file.length)).map fun j =>
        WireMsg.chunk ((file.drop (j * CHUNK_SIZE)).take CHUNK_SIZE) j t := by
  rw [sendNextChunk_zero]

theorem sendNextChunk_snd (file : Bytes) (t : Nat) :
    (sendNextChunk file 0 0 t).2 =
      (List.range (totalChunks file.length)).map fun j => jsRound ((j + 1) * 100) t := by
  rw [sendNextChunk_zero]

/-! ## Helper lemmas about `jsRound` and assembly -/

theorem jsRound_le_jsRound {a b : Nat} (n : Nat) (h : a ≤ b) :
    jsRound a n ≤ jsRound b n :=
  Nat.div_le_div_right (by omega)

theorem jsRound_hundred {n : Nat} (hn : 0 < n) : jsRound (n * 100) n = 100 := by
  unfold jsRound
  rw [show 2 * (n * 100) + n = 201 * n from by ring,
    Nat.mul_div_mul_right 201 2 hn]

theorem flatten_filterMap_length (l : List (Option Bytes)) :
    ((l.filterMap id).flatten).length = assembledSize l := by
  induction l with
  | nil => rfl
  | cons o t ih =>
    cases o with
    | none => simpa [assembledSize, chunkLen] using ih
    | some c =>
      simp only [assembledSize, chunkLen, List.filterMap_cons, List.map_cons,
        List.sum_cons, Option.getD_some, id] at ih ⊢
      simp [ih]

/-! ## Helper lemmas about the receiver -/

theorem receiverRun_nil (s : ReceiverState) : receiverRun s [] = s := rfl

theorem receiverRun_cons (s : ReceiverState) (m : RecvMsg) (ms : List RecvMsg) :
    receiverRun s (m :: ms) = receiverRun (handleReceivedData s m) ms := rfl

theorem setChunkAt_length_eq (l : List (Option Bytes)) (p : Bytes) :
    setChunkAt l l.length p = l ++ [some p] := by
  unfold setChunkAt
  rw [if_neg (lt_irrefl _)]
  simp

theorem handleReceivedData_chunk_latched (s : ReceiverState) (p : Bytes)
    (n' : Option Nat) (i : Nat) (hn : s.totalChunksRef ≠ 0)
    (hi : i = s.fileChunksRef.length) :
    handleReceivedData s (.chunk (some p) (some i) n') =
      { s with fileChunksRef := s.fileChunksRef ++ [some p],
               receivedChunksRef := s.receivedChunksRef + 1,
               transferProgress :=
                 jsRound ((s.receivedChunksRef + 1) * 100) s.totalChunksRef } := by
  subst hi
  unfold handleReceivedData
  simp [hn, setChunkAt_length_eq]

theorem handleReceivedData_chunk_first (s : ReceiverState) (p : Bytes) (n i : Nat)
    (h0 : s.totalChunksRef = 0) (hn : n ≠ 0) (hi : i = s.fileChunksRef.length) :
    handleReceivedData s (.chunk (some p) (some i) (some n)) =
      { s with totalChunksRef := n,
               fileChunksRef := s.fileChunksRef ++ [some p],
               receivedChunksRef := s.receivedChunksRef + 1,
               transferProgress := jsRound ((s.receivedChunksRef + 1) * 100) n } := by
  subst hi
  unfold handleReceivedData
  simp [h0, hn, setChunkAt_length_eq]

theorem receiverRun_chunks (n : Nat) (pl : Nat → Bytes) :
    ∀ (k i : Nat) (s : ReceiverState), s.totalChunksRef = n → n ≠ 0 →
      s.fileChunksRef.length = i →
      receiverRun s
          ((List.range' i k).map fun j => RecvMsg.chunk (some (pl j)) (some j) (some n)) =
        { s with
          fileChunksRef := s.fileChunksRef ++ (List.range' i k).map (fun j => some (pl j)),
          receivedChunksRef := s.receivedChunksRef + k,
          transferProgress := if k = 0 then s.transferProgress
            else jsRound ((s.receivedChunksRef + k) * 100) n } := by
  intro k
  induction k with
  | zero =>
    intro i s h1 h2 h3
    simp [receiverRun]
  | succ k ih =>
    intro i s h1 h2 h3
    subst h3
    rw [List.range'_succ, List.map_cons, receiverRun_cons]
    rw [handleReceivedData_chunk_latched s _ (some n) _ (by rw [h1]; exact h2) rfl]
    rw [ih (s.fileChunksRef.length + 1) _ (by simp [h1]) h2 (by simp)]
    by_cases hk : k = 0 <;>
      simp [hk, h1, List.append_assoc, Nat.add_assoc, Nat.add_comm 1 k]

theorem receiverRun_full (n : Nat) (hn : n ≠ 0) (pl : Nat → Bytes) (s : ReceiverState)
    (h0 : s.totalChunksRef = 0) (hfc : s.fileChunksRef = [])
    (hrc : s.receivedChunksRef = 0) (k' : Nat) :
    receiverRun s ((List.range' 0 (k' + 1)).map
        fun j => RecvMsg.chunk (some (pl j)) (some j) (some n)) =
      { s with totalChunksRef := n,
               fileChunksRef := (List.range' 0 (k' + 1)).map (fun j => some (pl j)),
               receivedChunksRef := k' + 1,
               transferProgress := jsRound ((k' + 1) * 100) n } := by
  rw [List.range'_succ, List.map_cons, receiverRun_cons]
  rw [handleReceivedData_chunk_first s (pl 0) n 0 h0 hn (by rw [hfc]; rfl)]
  rw [receiverRun_chunks n pl k' 1 _ (by simp) hn (by simp [hfc])]
  by_cases hk' : k' = 0 <;>
    simp [hk', hfc, hrc, List.range'_succ, Nat.add_comm]

/-! ## Claims -/

/-- C1: for every file of size `S > 0`, splitting its bytes into consecutive
chunks of `CHUNK_SIZE = 16384` bytes as `sendNextChunk` does and concatenating
the chunks in index order reproduces the original byte sequence exactly, and
the reassembled length equals `S`. -/
theorem claim_C1_chunk_reassembly (file : Bytes) (h : 0 < file.length) :
    (((sendNextChunk file 0 0 (totalChunks file.length)).1).map chunkData).flatten = file ∧
    ((((sendNextChunk file 0 0 (totalChunks file.length)).1).map chunkData).flatten).length
      = file.length := by
  have hf := sendNextChunk_flatten file (totalChunks file.length) file.length 0 0 (by omega)
  rw [List.drop_zero] at hf
  exact ⟨hf, by rw [hf]⟩

theorem claim_C1_witness :
    0 < ([0] : Bytes).length ∧
    ((((sendNextChunk [0] 0 0 (totalChunks ([0] : Bytes).length)).1).map chunkData).flatten
        = [0] ∧
     ((((sendNextChunk [0] 0 0 (totalChunks ([0] : Bytes).length)).1).map chunkData).flatten).length
        = ([0] : Bytes).length) :=
  ⟨by decide, claim_C1_chunk_reassembly [0] (by decide)⟩

/-- C2: for every file of size `S > 0` the sender computes
`totalChunks = ceil(S / 16384)` (characterised here by
`S ≤ 16384 * totalChunks S < S + 16384`), the number of `FILE_CHUNK` messages
equals `totalChunks S`, and a 50000-byte file is split into exactly 4 chunks
of sizes 16384, 16384, 16384 and 848 bytes. -/
theorem claim_C2_totalChunks (file : Bytes) (h : 0 < file.length) :
    file.length ≤ CHUNK_SIZE * totalChunks file.length ∧
    CHUNK_SIZE * totalChunks file.length < file.length + CHUNK_SIZE ∧
    (sendNextChunk file 0 0 (totalChunks file.length)).1.length = totalChunks file.length ∧
    (file.length = 50000 →
      totalChunks file.length = 4 ∧
      ((sendNextChunk file 0 0 (totalChunks file.length)).1.map
          fun m => (chunkData m).length) = [16384, 16384, 16384, 848]) := by
  refine ⟨?_, ?_, ?_, fun h50 => ⟨?_, ?_⟩⟩
  · simp only [totalChunks, CHUNK_SIZE]
    omega
  · simp only [totalChunks, CHUNK_SIZE]
    omega
  · rw [sendNextChunk_zero]
    simp
  · rw [h50]
    decide
  · rw [sendNextChunk_zero]
    simp only [List.map_map, Function.comp_def, chunkData, List.length_take,
      List.length_drop, h50]
    decide

theorem claim_C2_witness :
    0 < (List.replicate 50000 (0 : Byte)).length ∧
    ((List.replicate 50000 (0 : Byte)).length ≤
        CHUNK_SIZE * totalChunks (List.replicate 50000 (0 : Byte)).length ∧
     CHUNK_SIZE * totalChunks (List.replicate 50000 (0 : Byte)).length <
        (List.replicate 50000 (0 : Byte)).length + CHUNK_SIZE ∧
     (sendNextChunk (List.replicate 50000 (0 : Byte)) 0 0
        (totalChunks (List.replicate 50000 (0 : Byte)).length)).1.length =
        totalChunks (List.replicate 50000 (0 : Byte)).length ∧
     ((List.replicate 50000 (0 : Byte)).length = 50000 →
       totalChunks (List.replicate 50000 (0 : Byte)).length = 4 ∧
       ((sendNextChunk (List.replicate 50000 (0 : Byte)) 0 0
           (totalChunks (List.replicate 50000 (0 : Byte)).length)).1.map
           fun m => (chunkData m).length) = [16384, 16384, 16384, 848])) :=
  ⟨by rw [List.length_replicate]; norm_num,
   claim_C2_totalChunks (List.replicate 50000 0) (by rw [List.length_replicate]; norm_num)⟩

/-- C3: for every file sent while connected, the sender emits exactly one
`FILE_METADATA` message (with the file's name, size and type) first, then
`FILE_CHUNK` messages whose `chunkIndex` takes each value
`0..totalChunks - 1` exactly once in increasing order (each carrying
`totalChunks`), and finally exactly one `FILE_COMPLETE` marker. -/
theorem claim_C3_message_sequence (c : SenderConn) (st : SenderTransfer) (f : SenderFile)
    (h1 : c.hasConnection = true) (h2 : c.connectionStatus = "connected")
    (h3 : c.connectionReady = true) :
    (sendFile c st f).sent =
      WireMsg.metadata f.name f.content.length f.fileType ::
        (((List.range (totalChunks f.content.length)).map fun i =>
            WireMsg.chunk ((f.content.drop (i * CHUNK_SIZE)).take CHUNK_SIZE) i
              (totalChunks f.content.length)) ++ [WireMsg.complete]) := by
  unfold sendFile
  rw [if_neg (by simp [h1, h2, h3])]
  rw [sendNextChunk_zero]

theorem claim_C3_witness :
    (sendFile ⟨true, "connected", true⟩ ⟨"", 0⟩ ⟨"a", [1, 2], "t"⟩).sent =
      WireMsg.metadata "a" ([1, 2] : Bytes).length "t" ::
        (((List.range (totalChunks ([1, 2] : Bytes).length)).map fun i =>
            WireMsg.chunk ((([1, 2] : Bytes).drop (i * CHUNK_SIZE)).take CHUNK_SIZE) i
              (totalChunks ([1, 2] : Bytes).length)) ++ [WireMsg.complete]) :=
  claim_C3_message_sequence ⟨true, "connected", true⟩ ⟨"", 0⟩ ⟨"a", [1, 2], "t"⟩ rfl rfl rfl

/-- C7: a `FILE_CHUNK` message whose `data` field is absent is ignored by the
receiver: no chunk is stored, the received count is not incremented, progress
does not change, and no error is raised — the state is returned unchanged. -/
theorem claim_C7_chunk_without_data (s : ReceiverState) (idx tot : Option Nat) :
    handleReceivedData s (.chunk none idx tot) = s := rfl

/-- C8: if the connection status is not `connected` when `sendFile` is
invoked, the call surfaces a transfer error and does nothing else: no message
is sent, no progress update is made, and the transfer state is unchanged. -/
theorem claim_C8_send_guard (c : SenderConn) (st : SenderTransfer) (f : SenderFile)
    (h : c.connectionStatus ≠ "connected") :
    sendFile c st f =
      { state := st, sent := [], progressUpdates := [], errorSurfaced := true } := by
  unfold sendFile
  rw [if_pos (by simp [bne_iff_ne, h])]

theorem claim_C8_witness :
    sendFile ⟨true, "disconnected", true⟩ ⟨"idle", 37⟩ ⟨"a", [1, 2], "t"⟩ =
      { state := ⟨"idle", 37⟩, sent := [], progressUpdates := [], errorSurfaced := true } :=
  claim_C8_send_guard ⟨true, "disconnected", true⟩ ⟨"idle", 37⟩ ⟨"a", [1, 2], "t"⟩
    (by decide)

/-- C4: within one transfer the progress updates are non-decreasing and end
at exactly 100.  On the sender, the successive `setTransferProgress` values
`round(chunksProcessed / totalChunks * 100)` form a non-decreasing list whose
last element is 100.  On the receiver, after the metadata message and the
first `k ≥ 1` of the sender's chunk messages the stored progress is
`round(k / totalChunks * 100)`; these values are non-decreasing in `k` and
equal exactly 100 at `k = totalChunks`, i.e. when the transfer completes. -/
theorem claim_C4_progress (file : Bytes) (h : 0 < file.length)
    (hc cr : Bool) (name ftype : String) (sz : Nat) :
    List.Pairwise (· ≤ ·) (sendNextChunk file 0 0 (totalChunks file.length)).2 ∧
    (sendNextChunk file 0 0 (totalChunks file.length)).2.getLast? = some 100 ∧
    (∀ k, 1 ≤ k → k ≤ totalChunks file.length →
      (receiverRun (initialReceiverState hc cr)
          (RecvMsg.metadata name sz ftype ::
            ((sendNextChunk file 0 0 (totalChunks file.length)).1.take k).map
              toRecvMsg)).transferProgress
        = jsRound (k * 100) (totalChunks file.length)) ∧
    (∀ k₁ k₂ : Nat, k₁ ≤ k₂ →
      jsRound (k₁ * 100) (totalChunks file.length)
        ≤ jsRound (k₂ * 100) (totalChunks file.length)) ∧
    jsRound (totalChunks file.length * 100) (totalChunks file.length) = 100 := by
  have htot : 0 < totalChunks file.length := by
    simp only [totalChunks, CHUNK_SIZE]
    omega
  refine ⟨?_, ?_, ?_, fun k₁ k₂ hk => jsRound_le_jsRound _ (by omega),
    jsRound_hundred htot⟩
  · rw [sendNextChunk_snd]
    exact List.Pairwise.map _ (fun a b hab => jsRound_le_jsRound _ (by omega))
      (List.pairwise_lt_range _)
  · rw [sendNextChunk_snd]
    obtain ⟨m, hm⟩ : ∃ m, totalChunks file.length = m + 1 :=
      ⟨totalChunks file.length - 1, by omega⟩
    rw [hm, List.range_succ, List.map_append, List.map_cons, List.map_nil,
      List.getLast?_concat]
    exact congrArg some (jsRound_hundred (by omega))
  · intro k hk1 hk2
    obtain ⟨k', rfl⟩ : ∃ k', k = k' + 1 := ⟨k - 1, by omega⟩
    have hmsgs : (((sendNextChunk file 0 0 (totalChunks file.length)).1.take (k' + 1)).map
          toRecvMsg) =
        (List.range' 0 (k' + 1)).map
          fun j => RecvMsg.chunk (some ((file.drop (j * CHUNK_SIZE)).take CHUNK_SIZE))
            (some j) (some (totalChunks file.length)) := by
      rw [sendNextChunk_fst, ← List.map_take, List.take_range, min_eq_left hk2,
        List.map_map, List.range_eq_range']
      rfl
    rw [hmsgs, receiverRun_cons]
    have hmeta : handleReceivedData (initialReceiverState hc cr)
        (RecvMsg.metadata name sz ftype) =
        { fileChunksRef := [], receivedChunksRef := 0, totalChunksRef := 0,
          receivedFileName := if name = "" then "unknown" else name,
          receivedFileSize := sz, receivedFileType := ftype,
          transferStatus := "receiving",
          transferProgress := (initialReceiverState hc cr).transferProgress,
          hasConnection := hc, connectionReady := cr } := rfl
    rw [hmeta, receiverRun_full (totalChunks file.length) (by omega)
      (fun j => (file.drop (j * CHUNK_SIZE)).take CHUNK_SIZE) _ rfl rfl rfl k']

theorem claim_C4_witness :
    List.Pairwise (· ≤ ·) (sendNextChunk [0] 0 0 (totalChunks ([0] : Bytes).length)).2 ∧
    (sendNextChunk [0] 0 0 (totalChunks ([0] : Bytes).length)).2.getLast? = some 100 ∧
    (receiverRun (initialReceiverState true true)
        (RecvMsg.metadata "f" 1 "t" ::
          ((sendNextChunk [0] 0 0 (totalChunks ([0] : Bytes).length)).1.take 1).map
            toRecvMsg)).transferProgress
      = jsRound (1 * 100) (totalChunks ([0] : Bytes).length) ∧
    jsRound (0 * 100) (totalChunks ([0] : Bytes).length)
      ≤ jsRound (1 * 100) (totalChunks ([0] : Bytes).length) ∧
    jsRound (totalChunks ([0] : Bytes).length * 100)
      (totalChunks ([0] : Bytes).length) = 100 := by
  obtain ⟨a, b, c, d, e⟩ := claim_C4_progress [0] (by decide) true true "f" "t" 1
  exact ⟨a, b, c 1 (by decide) (by decide), d 0 1 (by decide), e⟩

/-- C5 counterexample: the claim says a `FILE_METADATA` message "resets
progressPercent to 0", but the `FILE_METADATA` branch of
`handleReceivedData` contains no `setTransferProgress(0)`: starting from a
state whose progress is 73, the progress after the metadata message is still
73, not 0. -/
theorem claim_C5_counterexample :
    (handleReceivedData
        { initialReceiverState true true with transferProgress := 73 }
        (RecvMsg.metadata "f" 10 "txt")).transferProgress ≠ 0 := by decide

/-- C5 (amended): when the receiver handles a `FILE_METADATA` message
(including a second one arriving mid-transfer), it discards any prior partial
accumulation buffer, resets the received-chunk count and the latched
`totalChunks`, records the new name/size/type, and sets the phase to
`receiving`; `transferProgress` is left unchanged (it is not reset to 0 — it
only changes when the next chunk arrives). -/
theorem claim_C5_metadata_reset (s : ReceiverState) (name : String) (size : Nat)
    (ftype : String) :
    handleReceivedData s (.metadata name size ftype) =
      { s with fileChunksRef := [], receivedChunksRef := 0, totalChunksRef := 0,
               receivedFileName := if name = "" then "unknown" else name,
               receivedFileSize := size, receivedFileType := ftype,
               transferStatus := "receiving" } ∧
    (handleReceivedData s (.metadata name size ftype)).transferProgress
      = s.transferProgress :=
  ⟨rfl, rfl⟩

/-- C6: finalization fails with "No data received" and phase `error` when the
accumulation buffer is empty; fails with "Empty file" and phase `error` when
the total assembled length is zero; otherwise it concatenates the stored
chunks in index order into one contiguous byte sequence (whose length is the
total assembled length), sets phase `completed`, and sends
`FILE_RECEIVED_SUCCESSFULLY` back exactly when the channel is still
connected. -/
theorem claim_C6_finalization (s : ReceiverState) :
    (s.fileChunksRef.length = 0 →
      assembleAndDownloadFile s =
        ({ s with transferStatus := "error" },
         { errorMsg := some "Error downloading file: No data received",
           savedFile := none, ackSent := false })) ∧
    (s.fileChunksRef.length ≠ 0 → assembledSize s.fileChunksRef = 0 →
      assembleAndDownloadFile s =
        ({ s with transferStatus := "error" },
         { errorMsg := some "Error downloading file: Empty file",
           savedFile := none, ackSent := false })) ∧
    (s.fileChunksRef.length ≠ 0 → assembledSize s.fileChunksRef ≠ 0 →
      (assembleAndDownloadFile s).1 = { s with transferStatus := "completed" } ∧
      (assembleAndDownloadFile s).2.errorMsg = none ∧
      (assembleAndDownloadFile s).2.savedFile =
        some ((s.fileChunksRef.filterMap id).flatten) ∧
      ((s.fileChunksRef.filterMap id).flatten).length = assembledSize s.fileChunksRef ∧
      (assembleAndDownloadFile s).2.ackSent = (s.hasConnection && s.connectionReady)) := by
  refine ⟨fun h0 => ?_, fun h0 hz => ?_, fun h0 hz => ?_⟩
  · unfold assembleAndDownloadFile
    rw [if_pos h0]
  · unfold assembleAndDownloadFile
    rw [if_neg h0, if_pos hz]
  · unfold assembleAndDownloadFile
    rw [if_neg h0, if_neg hz]
    exact ⟨rfl, rfl, rfl, flatten_filterMap_length _, rfl⟩

theorem claim_C6_witness :
    ({ initialReceiverState true true with
        fileChunksRef := [some [5]] } : ReceiverState).fileChunksRef.length ≠ 0 ∧
    assembledSize ({ initialReceiverState true true with
        fileChunksRef := [some [5]] } : ReceiverState).fileChunksRef ≠ 0 ∧
    ((assembleAndDownloadFile
        { initialReceiverState true true with fileChunksRef := [some [5]] }).1 =
      { ({ initialReceiverState true true with fileChunksRef := [some [5]] } :
          ReceiverState) with transferStatus := "completed" } ∧
     (assembleAndDownloadFile
        { initialReceiverState true true with fileChunksRef := [some [5]] }).2.errorMsg
        = none ∧
     (assembleAndDownloadFile
        { initialReceiverState true true with fileChunksRef := [some [5]] }).2.savedFile
        = some ((({ initialReceiverState true true with fileChunksRef := [some [5]] } :
            ReceiverState).fileChunksRef.filterMap id).flatten) ∧
     ((({ initialReceiverState true true with fileChunksRef := [some [5]] } :
          ReceiverState).fileChunksRef.filterMap id).flatten).length =
        assembledSize ({ initialReceiverState true true with
          fileChunksRef := [some [5]] } : ReceiverState).fileChunksRef ∧
     (assembleAndDownloadFile
        { initialReceiverState true true with fileChunksRef := [some [5]] }).2.ackSent
        = (({ initialReceiverState true true with fileChunksRef := [some [5]] } :
            ReceiverState).hasConnection &&
           ({ initialReceiverState true true with fileChunksRef := [some [5]] } :
            ReceiverState).connectionReady)) :=
  ⟨by decide, by decide,
   (claim_C6_finalization
      { initialReceiverState true true with fileChunksRef := [some [5]] }).2.2
     (by decide) (by decide)⟩

/-- C9 counterexample: the claim says calling `switchMode` twice in
succession leaves the same state as calling it once, but `switchMode` flips
`joinMode` each time: from a sender-mode state, one call leaves
`joinMode = true` and two calls leave `joinMode = false`. -/
theorem claim_C9_counterexample :
    switchMode (switchMode
        { joinMode := false, connectionStatus := "connected", selectedFile := none,
          transferProgress := 50, transferStatus := "sending", joinRoomId := "",
          peerReady := true, connectionReady := true,
          hasConnection := true, hasPeer := true }) ≠
      switchMode
        { joinMode := false, connectionStatus := "connected", selectedFile := none,
          transferProgress := 50, transferStatus := "sending", joinRoomId := "",
          peerReady := true, connectionReady := true,
          hasConnection := true, hasPeer := true } := by decide

/-- C9 (amended): `switchMode` is safe to call from any state: it closes the
live connection and then destroys the live peer (only those that exist, in
that order), resets all transfer and connection state (status, selected
file, progress, phase, join token, readiness flags, refs) to their defaults,
and flips the role.  Everything except the role is idempotent: calling it
twice in succession leaves the same state as calling it once apart from
`joinMode`, which is flipped back to its original value; and the second call
finds nothing left to tear down. -/
theorem claim_C9_switchMode (s : AppState) :
    switchMode s =
      { joinMode := !s.joinMode, connectionStatus := "disconnected",
        selectedFile := none, transferProgress := 0, transferStatus := "",
        joinRoomId := "", peerReady := false, connectionReady := false,
        hasConnection := false, hasPeer := false } ∧
    switchMode (switchMode s) = { switchMode s with joinMode := s.joinMode } ∧
    switchModeActions s =
      ((if s.hasConnection then [TeardownAction.closeConnection] else []) ++
        (if s.hasPeer then [TeardownAction.destroyPeer] else [])) ∧
    switchModeActions (switchMode s) = [] := by
  refine ⟨rfl, ?_, rfl, rfl⟩
  simp [switchMode, Bool.not_not]

/-- C10: duplicate chunk indices are not detected: a sequence of well-formed
`FILE_CHUNK` messages that repeats `chunkIndex = 0` (with
`totalChunks = 1`) makes the receiver overwrite the stored payload at index
0 while still incrementing the received count, so the count exceeds the
latched `totalChunks` and the progress becomes 200 > 100. -/
theorem claim_C10_duplicate_chunk_index :
    (receiverRun (initialReceiverState true true)
        [RecvMsg.metadata "f" 2 "bin",
         RecvMsg.chunk (some [1]) (some 0) (some 1),
         RecvMsg.chunk (some [2]) (some 0) (some 1)]).fileChunksRef = [some [2]] ∧
    (receiverRun (initialReceiverState true true)
        [RecvMsg.metadata "f" 2 "bin",
         RecvMsg.chunk (some [1]) (some 0) (some 1),
         RecvMsg.chunk (some [2]) (some 0) (some 1)]).receivedChunksRef = 2 ∧
    (receiverRun (initialReceiverState true true)
        [RecvMsg.metadata "f" 2 "bin",
         RecvMsg.chunk (some [1]) (some 0) (some 1),
         RecvMsg.chunk (some [2]) (some 0) (some 1)]).totalChunksRef = 1 ∧
    (receiverRun (initialReceiverState true true)
        [RecvMsg.metadata "f" 2 "bin",
         RecvMsg.chunk (some [1]) (some 0) (some 1),
         RecvMsg.chunk (some [2]) (some 0) (some 1)]).totalChunksRef <
      (receiverRun (initialReceiverState true true)
        [RecvMsg.metadata "f" 2 "bin",
         RecvMsg.chunk (some [1]) (some 0) (some 1),
         RecvMsg.chunk (some [2]) (some 0) (some 1)]).receivedChunksRef ∧
    (receiverRun (initialReceiverState true true)
        [RecvMsg.metadata "f" 2 "bin",
         RecvMsg.chunk (some [1]) (some 0) (some 1),
         RecvMsg.chunk (some [2]) (some 0) (some 1)]).transferProgress = 200 ∧
    100 < (receiverRun (initialReceiverState true true)
        [RecvMsg.metadata "f" 2 "bin",
         RecvMsg.chunk (some [1]) (some 0) (some 1),
         RecvMsg.chunk (some [2]) (some 0) (some 1)]).transferProgress := by
  decide

end SecureShare
